import Mathlib

/-!
Verification of the Détour Obscura proximity-unlock application.

The repository ships three variants of the same single-page app:
* the main variant, `src/src/App.tsx` lines 1-763 (timeline-based content,
  merge-style unlock updates, a locked-teaser card, persisted progress with a
  guaranteed-default unlocked id);
* a second variant appended in the same file, lines 764-1010 (radius 200 m,
  `updateUnlocked` replaces the unlock list on every fix, no persistence);
* `src/unnamed/part_001` (layers-based content, merge-style unlock updates,
  persistence without a guaranteed-default id, no locked-teaser card).

Top-level definitions embed the main variant; namespace `Variant` embeds
`src/unnamed/part_001`; namespace `Second` embeds the second document of
`src/src/App.tsx`.  Geographic computation is modelled over the real numbers;
all list/state logic is modelled by computable functions.
-/

/-! # Definitions -/

/-- A timeline entry of the main variant (`src/src/App.tsx` lines 5-10). -/
structure TimelineEvent where
  year : String
  title : String
  description : String
  image : Option String := none

/-- Teaser block of the main variant (`src/src/App.tsx` lines 19-23). -/
structure Teaser where
  era : String
  category : String
  hint : String

/-- A catalog record of the main variant (`src/src/App.tsx` lines 12-26).
`coordinates` keeps the source order `(longitude, latitude)`. -/
structure Location where
  id : String
  name : String
  coordinates : ℝ × ℝ
  period : String
  shortDesc : String
  image : String
  teaser : Teaser
  timeline : List TimelineEvent
  funFact : String

/-- First catalog entry (`src/src/App.tsx` lines 29-64). -/
noncomputable def nicolasFlamel : Location :=
  { id := "nicolas-flamel"
    name := "Maison de Nicolas Flamel"
    coordinates := (2.3549, 48.8619)
    period := "1407"
    shortDesc := "Paris\x27s oldest stone house"
    image := "./images/flamel.jpg"
    teaser :=
      { era := "Medieval"
        category := "Architecture"
        hint := "A legendary figure from both history and fiction once lived here..." }
    timeline :=
      [ { year := "1407", title := "Construction"
          description := "Nicolas Flamel builds this house as a hostel for the poor. Lodgers were required to pray for the souls of Flamel and his wife Perenelle." }
      , { year := "1418", title := "Flamel\x27s Death"
          description := "Flamel dies wealthy, sparking rumors of alchemy. He was actually a successful scribe and manuscript dealer — the alchemy legends grew posthumously." }
      , { year := "1900s", title := "Rediscovery"
          description := "The building is recognized as Paris\x27s oldest stone house. The carved inscriptions on the facade, worn but visible, become a tourist attraction." }
      , { year := "1997", title := "Potter Fame"
          description := "J.K. Rowling includes Nicolas Flamel in Harry Potter. Suddenly the real Flamel\x27s house sees a new wave of visitors seeking the Philosopher\x27s Stone." } ]
    funFact := "The carved inscriptions on the facade were instructions for the poor lodgers — medieval terms of service, essentially." }

/-- Second catalog entry (`src/src/App.tsx` lines 65-100). -/
noncomputable def synagoguePavee : Location :=
  { id := "synagogue-pavee"
    name := "Synagogue Agudath Hakehilot"
    coordinates := (2.3589, 48.8551)
    period := "1913"
    shortDesc := "Art Nouveau masterpiece by Guimard"
    image := "./images/synagogue.jpg"
    teaser :=
      { era := "Belle Époque"
        category := "Religious"
        hint := "The architect who shaped the Paris Métro created something unexpected here..." }
    timeline :=
      [ { year := "1913", title := "Construction"
          description := "Hector Guimard, famous for Paris Métro entrances, designs this synagogue — his only religious building. The undulating concrete facade was revolutionary." }
      , { year := "1940", title := "Nazi Occupation"
          description := "During WWII, the synagogue is damaged but survives. The Marais Jewish community faces deportation; many never return." }
      , { year := "1945", title := "Liberation"
          description := "The synagogue reopens after the war. It becomes a symbol of the resilient Pletzl (Jewish quarter) community." }
      , { year := "2019", title := "Restoration"
          description := "Major restoration preserves Guimard\x27s Art Nouveau details. The building is now one of the few Guimard interiors open to visitors." } ]
    funFact := "Guimard married an American Jewish woman — likely the reason he took this unusual commission." }

/-- Third catalog entry (`src/src/App.tsx` lines 101-136). -/
noncomputable def cafeSuedois : Location :=
  { id := "cafe-suedois"
    name := "Swedish Institute & Café"
    coordinates := (2.3617, 48.8574)
    period := "1580s"
    shortDesc := "16th-century mansion turned cultural haven"
    image := "./images/swedish.jpg"
    teaser :=
      { era := "Renaissance"
        category := "Cultural"
        hint := "A Nordic secret hides within these centuries-old walls..." }
    timeline :=
      [ { year := "1580s", title := "Construction"
          description := "Hôtel de Marle is built as a Renaissance mansion. The stunning courtyard survives centuries of Parisian transformation largely intact." }
      , { year := "1789", title := "Revolution"
          description := "The owner, a tax collector, is murdered during the French Revolution. The building passes through various hands." }
      , { year := "1971", title := "Swedish Acquisition"
          description := "Sweden acquires the building and transforms it into a cultural center. A courtyard café introduces Parisians to fika." }
      , { year := "Today", title := "Cultural Hub"
          description := "The café serves exceptional cinnamon buns and coffee. It\x27s a hidden oasis where Swedish and French cultures blend." } ]
    funFact := "Fika isn\x27t just a coffee break — it\x27s a Swedish philosophy of slowing down and connecting with others." }

/-- The fixed catalog of the main variant (`src/src/App.tsx` lines 28-137). -/
noncomputable def LOCATIONS : List Location := [nicolasFlamel, synagoguePavee, cafeSuedois]

/-- `const UNLOCK_RADIUS = 150` (`src/src/App.tsx` line 141), in meters. -/
def UNLOCK_RADIUS : ℝ := 150

/-- The ids present in the catalog (`LOCATIONS.map(loc => loc.id)`). -/
noncomputable def catalogIds : List String := LOCATIONS.map Location.id

/-!
## Great-circle distance (Proximity Engine)

`getDistanceMeters` (`src/src/App.tsx` lines 144-152; the identical
`getDistanceMeters` of `part_001` lines 66-74 and `getDistanceInMeters` of the
second variant lines 817-825) is the haversine formula with Earth radius
6371000 m, finished by `Math.atan2`.  The JavaScript floating-point
computation is modelled over ℝ.
-/

/-- JavaScript `Math.atan2(y, x)`: the angle of the point `(x, y)`, in
`(-π, π]`, with `Math.atan2(0, 0) = 0`. -/
noncomputable def atan2 (y x : ℝ) : ℝ :=
  if 0 < x then Real.arctan (y / x)
  else if x < 0 ∧ 0 ≤ y then Real.arctan (y / x) + Real.pi
  else if x < 0 ∧ y < 0 then Real.arctan (y / x) - Real.pi
  else if x = 0 ∧ 0 < y then Real.pi / 2
  else if x = 0 ∧ y < 0 then -(Real.pi / 2)
  else 0

/-- The intermediate value `a` of the haversine formula
(`src/src/App.tsx` line 150):
`sin²(Δφ/2) + cos φ1 · cos φ2 · sin²(Δλ/2)` with angles in radians. -/
noncomputable def haversineA (lat1 lng1 lat2 lng2 : ℝ) : ℝ :=
  Real.sin ((lat2 - lat1) * Real.pi / 180 / 2) ^ 2 +
    Real.cos (lat1 * Real.pi / 180) * Real.cos (lat2 * Real.pi / 180) *
      Real.sin ((lng2 - lng1) * Real.pi / 180 / 2) ^ 2

/-- `getDistanceMeters` (`src/src/App.tsx` lines 144-152):
`R * 2 * Math.atan2(Math.sqrt(a), Math.sqrt(1 - a))` with `R = 6371000`. -/
noncomputable def getDistanceMeters (lat1 lng1 lat2 lng2 : ℝ) : ℝ :=
  6371000 * 2 *
    atan2 (Real.sqrt (haversineA lat1 lng1 lat2 lng2))
      (Real.sqrt (1 - haversineA lat1 lng1 lat2 lng2))

/-- The nearby filter of `updateUnlockedLocations` (`src/src/App.tsx` lines
422-427), parameterized by the radius as in the spec operation
`computeNearby`: the catalog entries within `radius` meters of the user.  The
source passes `loc.coordinates[1]` (latitude) and `loc.coordinates[0]`
(longitude) and compares `dist <= UNLOCK_RADIUS`. -/
noncomputable def computeNearby (userLat userLng radius : ℝ) : Set Location :=
  {loc | loc ∈ LOCATIONS ∧
    getDistanceMeters userLat userLng loc.coordinates.2 loc.coordinates.1 ≤ radius}

/-- The id image of the nearby set (`.map(loc => loc.id)` on the filtered
catalog, `src/src/App.tsx` line 427), at the fixed radius `UNLOCK_RADIUS`. -/
noncomputable def nearbyIds (userLat userLng : ℝ) : Set String :=
  {id | ∃ loc ∈ computeNearby userLat userLng UNLOCK_RADIUS, loc.id = id}

/-!
## Persistence (Unlock Store)

The main variant reads the key `detour-unlocked` inside the `useState`
initializer (`src/src/App.tsx` lines 370-389) and writes it in an effect
(lines 400-408).  The stored value is `JSON.stringify` of the id list, so a
well-formed stored value deserializes back to the same list of strings.  We
model the stored cell as either absent (`getItem` returned null or an empty
string), corrupt (any stored text whose parse — or whose subsequent use as an
array of strings — throws, which the `try/catch` converts into the default),
or a well-formed list of id strings.
-/

/-- The three observable shapes of the persisted `detour-unlocked` value. -/
inductive Stored where
  | missing : Stored
  | corrupt : Stored
  | list (ids : List String) : Stored

/-- The load path of the main variant (`src/src/App.tsx` lines 370-389): a
parsed list is returned as is, except that the guaranteed-default id
`nicolas-flamel` is pushed when absent; a missing value or a thrown parse
error yields the default `["nicolas-flamel"]`. -/
def loadUnlocked : Stored → List String
  | Stored.missing => ["nicolas-flamel"]
  | Stored.corrupt => ["nicolas-flamel"]
  | Stored.list ids =>
      if "nicolas-flamel" ∈ ids then ids else ids ++ ["nicolas-flamel"]

/-- The save path of the main variant (`src/src/App.tsx` lines 400-408):
`localStorage.setItem` of `JSON.stringify(unlockedIds)` under the fixed key.
A successful save stores the serialized id list. -/
def saveUnlocked (ids : List String) : Stored := Stored.list ids

/-- Whether every id of a list refers to an existing catalog record. -/
def validIds (ids : List String) : Prop := ∀ id ∈ ids, id ∈ catalogIds

/-!
## Proximity merge (applyProximity)

`updateUnlockedLocations` (`src/src/App.tsx` lines 421-434, and identically
`src/unnamed/part_001` lines 237-250) merges the freshly computed nearby id
list into the previous unlock list with
`Array.from(new Set([...prev, ...nearbyIds]))`.  A JavaScript `Set` keeps
first-occurrence insertion order, which `insertId`/`dedupFirst` reproduce.
-/

/-- One insertion step of `new Set(...)`: append unless already present. -/
def insertId (acc : List String) (x : String) : List String :=
  if x ∈ acc then acc else acc ++ [x]

/-- `Array.from(new Set(l))`: deduplicate keeping first occurrences. -/
def dedupFirst (l : List String) : List String := l.foldl insertId []

/-- The merge inside `updateUnlockedLocations` (`src/src/App.tsx` lines
430-433): `Array.from(new Set([...prev, ...nearbyIds]))`. -/
def mergeUnlocked (prev nearbyIds : List String) : List String :=
  dedupFirst (prev ++ nearbyIds)

/-!
## View-layer helpers of the main variant
-/

/-- `getPinSize` (`src/src/App.tsx` lines 411-418): marker pixel size from the
zoom level, by a fixed step table.  Zoom is a numeric value; modelled over ℚ
(Leaflet zoom may be fractional). -/
def getPinSize (zoom : ℚ) : ℚ :=
  if zoom ≥ 18 then 40
  else if zoom ≥ 17 then 34
  else if zoom ≥ 16 then 28
  else if zoom ≥ 15 then 24
  else if zoom ≥ 14 then 20
  else 16

/-- `InfoCard`: `const totalLayers = location.timeline.length + 1` — the
timeline events plus the fun fact (`src/src/App.tsx` line 285). -/
def totalLayers (loc : Location) : ℕ := loc.timeline.length + 1

/-- `handlePrevLayer` (`src/src/App.tsx` lines 601-603):
`setInfoLayer(prev => Math.max(0, prev - 1))`. -/
def handlePrevLayer (infoLayer : ℤ) : ℤ := max 0 (infoLayer - 1)

/-- `handleNextLayer` (`src/src/App.tsx` lines 605-610): with a selected
location, `setInfoLayer(prev => Math.min(prev + 1, maxLayer))` where
`maxLayer = selectedLocation.timeline.length`. -/
def handleNextLayer (selectedLocation : Location) (infoLayer : ℤ) : ℤ :=
  min (infoLayer + 1) (selectedLocation.timeline.length : ℤ)

/-!
## Event-level state machine of the main variant

The React component state relevant to the claims: the unlock list, the
selected (unlocked detail) location, the locked-teaser location, the content
layer index and the tracker-panel flag (`src/src/App.tsx` lines 366-390).
Each user or sensor event maps to the handler the source installs.  A position
fix carries the already-computed nearby id list (the handler first filters the
catalog by distance, then merges; carrying an arbitrary list makes the
reachable-state set a superset of the real one, so proved invariants are
stronger).
-/

/-- The mutable component state of the main variant. -/
structure AppState where
  unlockedIds : List String
  selectedLocation : Option Location
  lockedLocation : Option Location
  infoLayer : ℤ
  showTracker : Bool

/-- The events the main variant reacts to. -/
inductive Event where
  | markerClick (loc : Location) : Event
  | trackerClick (loc : Location) : Event
  | closeCard : Event
  | closeLocked : Event
  | toggleTracker : Event
  | prevLayer : Event
  | nextLayer : Event
  | positionFix (nearby : List String) : Event

/-- One event step of the main variant:
* `markerClick` (`src/src/App.tsx` lines 482-493): an unlocked id selects the
  location, clears the locked card and resets the layer to 0; a locked id
  shows the locked card and clears the selection;
* `trackerClick` (lines 696-705): an unlocked entry selects it, resets the
  layer and closes the tracker; a locked entry does nothing;
* `closeCard` = `handleCloseCard` (lines 596-599); `closeLocked`
  (line 735); `toggleTracker` (line 670);
* `prevLayer` / `nextLayer` = `handlePrevLayer` / `handleNextLayer`
  (lines 601-610), the latter a no-op without a selection;
* `positionFix` = `updateUnlockedLocations` (lines 421-434). -/
def step (s : AppState) : Event → AppState
  | Event.markerClick loc =>
      if loc.id ∈ s.unlockedIds then
        { s with selectedLocation := some loc, lockedLocation := none, infoLayer := 0 }
      else
        { s with lockedLocation := some loc, selectedLocation := none }
  | Event.trackerClick loc =>
      if loc.id ∈ s.unlockedIds then
        { s with selectedLocation := some loc, lockedLocation := none,
                 infoLayer := 0, showTracker := false }
      else s
  | Event.closeCard => { s with selectedLocation := none, infoLayer := 0 }
  | Event.closeLocked => { s with lockedLocation := none }
  | Event.toggleTracker => { s with showTracker := !s.showTracker }
  | Event.prevLayer => { s with infoLayer := handlePrevLayer s.infoLayer }
  | Event.nextLayer =>
      match s.selectedLocation with
      | some loc => { s with infoLayer := handleNextLayer loc s.infoLayer }
      | none => s
  | Event.positionFix nearby =>
      { s with unlockedIds := mergeUnlocked s.unlockedIds nearby }

/-- The component state at mount: the unlock list from storage
(`src/src/App.tsx` lines 370-389), no card, layer 0, tracker closed
(lines 366-369, 390-391). -/
def initState (stored : Stored) : AppState :=
  { unlockedIds := loadUnlocked stored
    selectedLocation := none
    lockedLocation := none
    infoLayer := 0
    showTracker := false }

/-- The state after a sequence of events from a mount with the given stored
value. -/
def run (stored : Stored) (evs : List Event) : AppState :=
  evs.foldl step (initState stored)

/-- The layer-bound invariant of claim C9: whenever a location is selected the
layer index lies in `[0, timeline.length]` (the last index denoting the
fun-fact layer). -/
def LayerInv (s : AppState) : Prop :=
  ∀ loc : Location, s.selectedLocation = some loc →
    0 ≤ s.infoLayer ∧ s.infoLayer ≤ (loc.timeline.length : ℤ)

namespace Variant

/-- The per-location content layers of `src/unnamed/part_001` (lines 11-16):
description and fun fact always present, deeper history and connections
optional. -/
structure Layers where
  description : String
  funFact : String
  deeperHistory : Option String := none
  connections : Option String := none

/-- A catalog record of `src/unnamed/part_001` (lines 5-17). -/
structure Location where
  id : String
  name : String
  coordinates : ℝ × ℝ
  period : String
  shortDesc : String
  layers : Layers

/-- First catalog entry of `part_001` (lines 20-32). -/
noncomputable def nicolasFlamel : Location :=
  { id := "nicolas-flamel"
    name := "Maison de Nicolas Flamel"
    coordinates := (2.3549, 48.8619)
    period := "1407"
    shortDesc := "Paris\x27s oldest stone house"
    layers :=
      { description := "Built by the legendary alchemist Nicolas Flamel — yes, the one from Harry Potter was based on a real person who lived right here in the Marais."
        funFact := "Flamel was actually a successful scribe and manuscript dealer. The alchemy legends grew after his death when people noticed he had become mysteriously wealthy."
        deeperHistory := some "The house was built as a hostel for the poor, with the requirement that lodgers pray for the souls of Flamel and his wife Perenelle. The carved inscriptions on the facade still survive."
        connections := some "Walk 200m east to find the Tour Saint-Jacques, where Flamel allegedly conducted alchemical experiments." } }

/-- Second catalog entry of `part_001` (lines 33-45). -/
noncomputable def synagoguePavee : Location :=
  { id := "synagogue-pavee"
    name := "Synagogue Agudath Hakehilot"
    coordinates := (2.3589, 48.8551)
    period := "1913"
    shortDesc := "Art Nouveau masterpiece by Guimard"
    layers :=
      { description := "Designed by Hector Guimard, famous for those iconic Paris Métro entrances. This is one of the few Guimard buildings you can actually enter."
        funFact := "Guimard married an American Jewish woman, which likely influenced his decision to design this synagogue — his only religious building ever."
        deeperHistory := some "The synagogue survived Nazi occupation but was damaged. The undulating concrete facade was revolutionary for religious architecture at the time."
        connections := some "The Pletzl (Jewish quarter) surrounds this area — explore rue des Rosiers for more history." } }

/-- Third catalog entry of `part_001` (lines 46-58). -/
noncomputable def cafeSuedois : Location :=
  { id := "cafe-suedois"
    name := "Swedish Institute & Café"
    coordinates := (2.3617, 48.8574)
    period := "1580s"
    shortDesc := "16th-century mansion turned cultural haven"
    layers :=
      { description := "A Renaissance-era Marais mansion converted into a Swedish cultural center. The courtyard café serves exceptional fika (Swedish coffee break with pastries)."
        funFact := "The building was once owned by a tax collector who was murdered during the French Revolution. The Swedes acquired it in 1971."
        deeperHistory := some "The Hôtel de Marle features a stunning Renaissance courtyard that survived centuries of Parisian transformation largely intact."
        connections := some "The nearby Musée Picasso occupies a similar 17th-century mansion — both showcase how the aristocracy once lived." } }

/-- Catalog of `part_001` (lines 19-59). -/
noncomputable def LOCATIONS : List Location := [nicolasFlamel, synagoguePavee, cafeSuedois]

/-- `InfoCard` of `part_001` (lines 150-155): the defined content blocks,
`[description, funFact, deeperHistory, connections].filter(Boolean)` —
`filter(Boolean)` drops both `undefined` entries and empty strings. -/
def layerContent (loc : Location) : List String :=
  (([some loc.layers.description, some loc.layers.funFact,
     loc.layers.deeperHistory, loc.layers.connections]).filterMap id).filter
    (fun s => !s.isEmpty)

/-- `getPinSize` of `part_001` (lines 227-234). -/
def getPinSize (zoom : ℚ) : ℚ :=
  if zoom ≥ 18 then 28
  else if zoom ≥ 17 then 24
  else if zoom ≥ 16 then 20
  else if zoom ≥ 15 then 16
  else if zoom ≥ 14 then 14
  else 12

/-- Load path of `part_001` (lines 204-212): the parsed list, or the empty
default on a missing value or a thrown parse error; nothing is re-added. -/
def loadUnlocked : Stored → List String
  | Stored.missing => []
  | Stored.corrupt => []
  | Stored.list ids => ids

/-- `handlePrevLayer` of `part_001` (lines 375-377):
`setInfoLayer(prev => Math.max(0, prev - 1))`. -/
def handlePrevLayer (infoLayer : ℤ) : ℤ := max 0 (infoLayer - 1)

/-- `handleNextLayer` of `part_001` (lines 379-381):
`setInfoLayer(prev => prev + 1)` — no clamp in the handler itself. -/
def handleNextLayer (infoLayer : ℤ) : ℤ := infoLayer + 1

/-- The prev control of `part_001`: the button carries
`disabled={!hasPrev}` with `hasPrev = layer > 0` (lines 158, 172-177), so the
handler only fires on an interior layer. -/
def prevClick (layer : ℤ) : ℤ :=
  if 0 < layer then handlePrevLayer layer else layer

/-- The next control of `part_001`: the button carries
`disabled={!hasNext}` with `hasNext = layer < layerContent.length - 1`
(lines 159, 184-190), so the unclamped handler only fires strictly below the
last layer. -/
def nextClick (loc : Location) (layer : ℤ) : ℤ :=
  if layer < ((layerContent loc).length : ℤ) - 1 then handleNextLayer layer else layer

/-- The component state of `part_001` relevant to marker taps (lines
203-213): there is no locked-teaser card in this variant. -/
structure State where
  unlockedIds : List String
  selectedLocation : Option Location
  infoLayer : ℤ

/-- Marker click handler of `part_001` (lines 296-303): only an unlocked id
selects the location and resets the layer; a tap on a locked marker does
nothing at all. -/
def markerClick (s : State) (loc : Location) : State :=
  if loc.id ∈ s.unlockedIds then
    { s with selectedLocation := some loc, infoLayer := 0 }
  else s

/-- The `part_001` component state at mount (lines 203-214). -/
def initState (stored : Stored) : State :=
  { unlockedIds := loadUnlocked stored
    selectedLocation := none
    infoLayer := 0 }

end Variant

namespace Second

/-- The per-position-fix update of the second `App.tsx` variant
(`src/src/App.tsx` lines 846-854): `setUnlockedIds(newUnlocked)` replaces the
previous unlock list with the freshly computed nearby list; the previous value
is discarded, not merged. -/
def updateUnlocked (prev newUnlocked : List String) : List String := newUnlocked

/-- `const UNLOCK_RADIUS = 200` (`src/src/App.tsx` line 815). -/
def UNLOCK_RADIUS : ℝ := 200

end Second

/-! # Theorems -/

/-! ## Set-level facts about the merge -/

theorem insertId_toFinset (acc : List String) (x : String) :
    (insertId acc x).toFinset = insert x acc.toFinset := by
  unfold insertId
  split_ifs with h
  · exact (Finset.insert_eq_self.mpr (List.mem_toFinset.mpr h)).symm
  · simp [List.toFinset_append, Finset.union_comm, Finset.insert_eq]

theorem foldl_insertId_toFinset (l acc : List String) :
    (l.foldl insertId acc).toFinset = acc.toFinset ∪ l.toFinset := by
  induction l generalizing acc with
  | nil => simp
  | cons x l ih =>
      rw [List.foldl_cons, ih, insertId_toFinset, List.toFinset_cons,
        Finset.insert_union, Finset.union_insert]

theorem mergeUnlocked_toFinset (prev nearbyIds : List String) :
    (mergeUnlocked prev nearbyIds).toFinset = prev.toFinset ∪ nearbyIds.toFinset := by
  rw [mergeUnlocked, dedupFirst, foldl_insertId_toFinset, List.toFinset_append]
  simp

/-- Claim C1: the claim asserts that every per-position-fix unlock update —
including `updateUnlocked` of the second `App.tsx` variant (lines 846-854) —
returns the union of the current unlock set and the nearby set.  The second
variant refutes it at `S = ["nicolas-flamel"]`, `N = []`: the update returns
`[]`, which is not the union `{"nicolas-flamel"}`; the previously granted
unlock is revoked. -/
theorem c1_counterexample :
    ¬ ((Second.updateUnlocked ["nicolas-flamel"] []).toFinset =
       (["nicolas-flamel"] : List String).toFinset ∪ ([] : List String).toFinset) := by
  decide

/-- Claim C1 (amended): in the merging variants (`updateUnlockedLocations` of
the main variant and of `part_001`), the update returns exactly the set union
`S ∪ N`; hence it is idempotent on the empty nearby set and monotonic, and an
unlock is never revoked there.  In the second `App.tsx` variant the update
instead replaces the unlock list with the nearby list. -/
theorem c1_applyProximity_union :
    (∀ S N : List String, (mergeUnlocked S N).toFinset = S.toFinset ∪ N.toFinset)
    ∧ (∀ S : List String, (mergeUnlocked S []).toFinset = S.toFinset)
    ∧ (∀ S N : List String, S.toFinset ⊆ (mergeUnlocked S N).toFinset)
    ∧ (∀ prev newU : List String, Second.updateUnlocked prev newU = newU) := by
  refine ⟨mergeUnlocked_toFinset, ?_, ?_, fun _ _ => rfl⟩
  · intro S
    rw [mergeUnlocked_toFinset]
    simp
  · intro S N
    rw [mergeUnlocked_toFinset]
    exact Finset.subset_union_left

/-- Claim C2: the claim asserts `load(save(S)) == S` for every valid set `S`
of existing ids, while also requiring load to re-add the guaranteed-default
id.  It fails at the valid set `S = ["synagogue-pavee"]`: load appends
`nicolas-flamel`, so the result is not equal to `S` (not even as a set). -/
theorem c2_counterexample :
    validIds ["synagogue-pavee"]
    ∧ ¬ ((loadUnlocked (saveUnlocked ["synagogue-pavee"])).toFinset =
         (["synagogue-pavee"] : List String).toFinset) := by
  constructor
  · intro id h
    simp only [List.mem_singleton] at h
    subst h
    decide
  · decide

/-- Claim C2 (amended): persistence round-trips up to the guaranteed-default
id: for every list `S`, `load(save(S))` equals `S ∪ {"nicolas-flamel"}` as a
set, and when `nicolas-flamel` is already in `S` the stored list is returned
unchanged, so `load(save(S)) = S` exactly then. -/
theorem c2_roundtrip :
    (∀ S : List String,
      (loadUnlocked (saveUnlocked S)).toFinset = S.toFinset ∪ {"nicolas-flamel"})
    ∧ (∀ S : List String, "nicolas-flamel" ∈ S → loadUnlocked (saveUnlocked S) = S) := by
  constructor
  · intro S
    simp only [loadUnlocked, saveUnlocked]
    split_ifs with h
    · ext a
      simp only [List.mem_toFinset, Finset.mem_union, Finset.mem_singleton]
      constructor
      · exact fun ha => Or.inl ha
      · rintro (ha | rfl)
        · exact ha
        · exact h
    · ext a
      simp [List.toFinset_append]
  · intro S h
    simp only [loadUnlocked, saveUnlocked, if_pos h]

/-- Witness for C2 (amended): at the concrete list `["nicolas-flamel"]` the
membership hypothesis holds and the round-trip is the identity. -/
theorem c2_roundtrip_witness :
    loadUnlocked (saveUnlocked ["nicolas-flamel"]) = ["nicolas-flamel"] :=
  c2_roundtrip.2 ["nicolas-flamel"] (by decide)

/-- Claim C6: on a missing, malformed or corrupted stored value, load of the
main variant returns the default `["nicolas-flamel"]` (empty plus the
guaranteed-default id) and load of the `part_001` variant returns the empty
default; in the model both are total functions, i.e. nothing is thrown past
the load boundary. -/
theorem c6_load_default :
    loadUnlocked Stored.missing = ["nicolas-flamel"]
    ∧ loadUnlocked Stored.corrupt = ["nicolas-flamel"]
    ∧ Variant.loadUnlocked Stored.missing = []
    ∧ Variant.loadUnlocked Stored.corrupt = [] :=
  ⟨rfl, rfl, rfl, rfl⟩

/-- Claim C5: the claim asserts that stale ids in persisted storage are
ignored by load, so the in-memory unlock set only references catalog ids.
The load path refutes it: a stored list `["ghost-id"]` is returned as
`["ghost-id", "nicolas-flamel"]` — the stale id is retained, not ignored. -/
theorem c5_counterexample :
    ¬ validIds (loadUnlocked (Stored.list ["ghost-id"])) := by
  intro h
  exact absurd (h "ghost-id" (by decide)) (by decide)

/-- Claim C5 (amended): load does not filter stale ids, so the
referential-integrity invariant can be violated directly after a load from a
tampered store; what does hold is that load preserves validity when the
persisted list is valid, that the proximity merge preserves validity, and
that every id in a computed nearby set is a catalog id — so validity is
preserved by every `applyProximity` update once it holds. -/
theorem c5_referential_integrity :
    (∀ ids : List String, validIds ids → validIds (loadUnlocked (Stored.list ids)))
    ∧ (∀ S N : List String, validIds S → validIds N → validIds (mergeUnlocked S N))
    ∧ (∀ userLat userLng : ℝ, ∀ id ∈ nearbyIds userLat userLng, id ∈ catalogIds) := by
  refine ⟨?_, ?_, ?_⟩
  · intro ids h id hid
    simp only [loadUnlocked] at hid
    split_ifs at hid with hf
    · exact h id hid
    · rcases List.mem_append.mp hid with h1 | h1
      · exact h id h1
      · simp only [List.mem_singleton] at h1
        subst h1
        decide
  · intro S N hS hN id hid
    have hm : id ∈ (mergeUnlocked S N).toFinset := List.mem_toFinset.mpr hid
    rw [mergeUnlocked_toFinset] at hm
    rcases Finset.mem_union.mp hm with h1 | h1
    · exact hS id (List.mem_toFinset.mp h1)
    · exact hN id (List.mem_toFinset.mp h1)
  · intro userLat userLng id hid
    obtain ⟨loc, hloc, rfl⟩ := hid
    exact List.mem_map_of_mem Location.id hloc.1

/-- Witness for C5 (amended): the valid persisted list `["cafe-suedois"]`
loads to a valid unlock list. -/
theorem c5_witness :
    validIds (loadUnlocked (Stored.list ["cafe-suedois"])) :=
  c5_referential_integrity.1 ["cafe-suedois"] (by unfold validIds; decide)

/-- Claim C3: layer navigation is clamped to `[0, layerCount - 1]`.  In the
main variant (`totalLayers = timeline.length + 1`) the handlers themselves
clamp: next yields `min(i+1, layerCount-1)`, prev yields `max(i-1, 0)`, prev
at 0 and next at the last index are no-ops, and next-then-prev is the
identity on interior indices.  In the `part_001` variant the next handler is
unclamped but its button is disabled at the last index
(`disabled={!hasNext}`), so the deliverable next action (`nextClick`)
satisfies the same clamped equations over `layerContent.length` layers. -/
theorem c3_layer_navigation :
    (∀ (loc : Location) (i : ℤ), 0 ≤ i → i ≤ (totalLayers loc : ℤ) - 1 →
      handleNextLayer loc i = min (i + 1) ((totalLayers loc : ℤ) - 1)
      ∧ handlePrevLayer i = max (i - 1) 0
      ∧ handlePrevLayer 0 = 0
      ∧ handleNextLayer loc ((totalLayers loc : ℤ) - 1) = (totalLayers loc : ℤ) - 1
      ∧ (i < (totalLayers loc : ℤ) - 1 → handlePrevLayer (handleNextLayer loc i) = i))
    ∧ (∀ (loc : Variant.Location) (i : ℤ), 0 ≤ i →
        i ≤ ((Variant.layerContent loc).length : ℤ) - 1 →
      Variant.nextClick loc i = min (i + 1) (((Variant.layerContent loc).length : ℤ) - 1)
      ∧ Variant.prevClick i = max (i - 1) 0
      ∧ Variant.prevClick 0 = 0
      ∧ Variant.nextClick loc (((Variant.layerContent loc).length : ℤ) - 1) =
          ((Variant.layerContent loc).length : ℤ) - 1
      ∧ (i < ((Variant.layerContent loc).length : ℤ) - 1 →
          Variant.prevClick (Variant.nextClick loc i) = i)) := by
  constructor
  · intro loc i h0 hle
    simp only [handleNextLayer, handlePrevLayer, totalLayers] at *
    push_cast at *
    refine ⟨by omega, by omega, by omega, by omega, fun hlt => by omega⟩
  · intro loc i h0 hle
    simp only [Variant.nextClick, Variant.prevClick, Variant.handleNextLayer,
      Variant.handlePrevLayer] at *
    refine ⟨?_, ?_, ?_, ?_, ?_⟩
    · split_ifs with h <;> omega
    · split_ifs with h <;> omega
    · split_ifs with h <;> omega
    · split_ifs with h <;> omega
    · intro hlt
      split_ifs <;> omega

set_option maxRecDepth 8192 in
/-- Witness for C3: at the first catalog entry and interior index 1 the
hypotheses hold and next yields the clamped successor in both variants. -/
theorem c3_witness :
    handleNextLayer nicolasFlamel 1 = min (1 + 1) ((totalLayers nicolasFlamel : ℤ) - 1)
    ∧ Variant.nextClick Variant.nicolasFlamel 1 =
        min (1 + 1) (((Variant.layerContent Variant.nicolasFlamel).length : ℤ) - 1) :=
  ⟨(c3_layer_navigation.1 nicolasFlamel 1 (by decide) (by decide)).1,
   (c3_layer_navigation.2 Variant.nicolasFlamel 1 (by decide) (by decide)).1⟩

/-- Claim C10: both pin-size tables are monotonically non-decreasing in the
zoom level, and their results always lie in the six fixed step values
(40/34/28/24/20/16 in the main variant, 28/24/20/16/14/12 in `part_001`), so
a marker never shrinks as the user zooms in. -/
theorem c10_pin_size :
    (∀ z1 z2 : ℚ, z1 ≤ z2 →
      getPinSize z1 ≤ getPinSize z2 ∧ Variant.getPinSize z1 ≤ Variant.getPinSize z2)
    ∧ (∀ z : ℚ, getPinSize z ∈ ([40, 34, 28, 24, 20, 16] : List ℚ)
        ∧ Variant.getPinSize z ∈ ([28, 24, 20, 16, 14, 12] : List ℚ)) := by
  constructor
  · intro z1 z2 h
    refine ⟨?_, ?_⟩
    · unfold getPinSize
      split_ifs
      all_goals try norm_num
      all_goals linarith
    · unfold Variant.getPinSize
      split_ifs
      all_goals try norm_num
      all_goals linarith
  · intro z
    refine ⟨?_, ?_⟩
    · unfold getPinSize
      split_ifs <;> simp
    · unfold Variant.getPinSize
      split_ifs <;> simp

/-- Witness for C10: zoom 14 versus zoom 15 in both tables. -/
theorem c10_witness :
    getPinSize 14 ≤ getPinSize 15 ∧ Variant.getPinSize 14 ≤ Variant.getPinSize 15 :=
  c10_pin_size.1 14 15 (by norm_num)

/-- Claim C7: the claim asserts that tapping any marker whose id is not in
the unlock set transitions to `ShowingLocked(id)`.  The `part_001` variant
(cited by the claim, lines 296-303) refutes it: with nothing unlocked,
tapping the `nicolas-flamel` marker leaves the state completely unchanged —
no card of any kind is shown, and the variant has no locked-teaser state at
all. -/
theorem c7_counterexample :
    Variant.markerClick (Variant.initState Stored.missing) Variant.nicolasFlamel =
      Variant.initState Stored.missing
    ∧ (Variant.markerClick (Variant.initState Stored.missing)
        Variant.nicolasFlamel).selectedLocation = none :=
  ⟨rfl, rfl⟩

/-- Claim C7 (amended): in the main variant a marker tap behaves exactly as
claimed — an unlocked id yields `ShowingUnlocked(id, 0)` (selected location
with layer 0, locked card cleared) and a locked id yields `ShowingLocked(id)`
(locked card shown, selection cleared).  In the `part_001` variant a tap on an
unlocked marker selects it with layer 0, while a tap on a locked marker is a
no-op.  Consequently, in both variants tapping a locked marker never produces
the unlocked-detail state and tapping an unlocked marker never produces the
locked-teaser card. -/
theorem c7_marker_tap :
    (∀ (s : AppState) (loc : Location), loc.id ∈ s.unlockedIds →
      (step s (Event.markerClick loc)).selectedLocation = some loc
      ∧ (step s (Event.markerClick loc)).infoLayer = 0
      ∧ (step s (Event.markerClick loc)).lockedLocation = none)
    ∧ (∀ (s : AppState) (loc : Location), loc.id ∉ s.unlockedIds →
      (step s (Event.markerClick loc)).lockedLocation = some loc
      ∧ (step s (Event.markerClick loc)).selectedLocation = none)
    ∧ (∀ (s : Variant.State) (loc : Variant.Location), loc.id ∈ s.unlockedIds →
      (Variant.markerClick s loc).selectedLocation = some loc
      ∧ (Variant.markerClick s loc).infoLayer = 0)
    ∧ (∀ (s : Variant.State) (loc : Variant.Location), loc.id ∉ s.unlockedIds →
      Variant.markerClick s loc = s) := by
  refine ⟨?_, ?_, ?_, ?_⟩
  · intro s loc h
    simp [step, h]
  · intro s loc h
    simp [step, h]
  · intro s loc h
    simp [Variant.markerClick, h]
  · intro s loc h
    simp [Variant.markerClick, h]

/-- Witness for C7 (amended): from a fresh mount of the main variant (only
`nicolas-flamel` unlocked), tapping the Flamel marker selects it and tapping
the locked synagogue marker shows the locked card. -/
theorem c7_witness :
    (step (initState Stored.missing) (Event.markerClick nicolasFlamel)).selectedLocation
      = some nicolasFlamel
    ∧ (step (initState Stored.missing) (Event.markerClick synagoguePavee)).lockedLocation
      = some synagoguePavee :=
  ⟨(c7_marker_tap.1 (initState Stored.missing) nicolasFlamel (by decide)).1,
   (c7_marker_tap.2.1 (initState Stored.missing) synagoguePavee (by decide)).1⟩

/-! ## The layer-bound invariant (claim C9) -/

theorem step_preserves_layerInv (s : AppState) (e : Event) (h : LayerInv s) :
    LayerInv (step s e) := by
  cases e with
  | markerClick loc =>
      by_cases hmem : loc.id ∈ s.unlockedIds
      · intro loc2 hsel
        simp only [step, if_pos hmem, Option.some.injEq] at hsel
        subst hsel
        simp only [step, if_pos hmem]
        constructor <;> omega
      · intro loc2 hsel
        simp [step, hmem] at hsel
  | trackerClick loc =>
      by_cases hmem : loc.id ∈ s.unlockedIds
      · intro loc2 hsel
        simp only [step, if_pos hmem, Option.some.injEq] at hsel
        subst hsel
        simp only [step, if_pos hmem]
        constructor <;> omega
      · intro loc2 hsel
        simp only [step, if_neg hmem] at hsel
        simp only [step, if_neg hmem]
        exact h loc2 hsel
  | closeCard =>
      intro loc2 hsel
      simp [step] at hsel
  | closeLocked =>
      intro loc2 hsel
      simp only [step] at hsel ⊢
      exact h loc2 hsel
  | toggleTracker =>
      intro loc2 hsel
      simp only [step] at hsel ⊢
      exact h loc2 hsel
  | prevLayer =>
      intro loc2 hsel
      simp only [step] at hsel ⊢
      obtain ⟨h1, h2⟩ := h loc2 hsel
      unfold handlePrevLayer
      constructor <;> omega
  | nextLayer =>
      intro loc2 hsel
      cases hsel0 : s.selectedLocation with
      | none => simp only [step, hsel0] at hsel; exact absurd hsel (by simp [hsel0])
      | some loc0 =>
          simp only [step, hsel0, Option.some.injEq] at hsel
          subst hsel
          obtain ⟨h1, h2⟩ := h loc0 hsel0
          simp only [step, hsel0]
          unfold handleNextLayer
          constructor <;> omega
  | positionFix nearby =>
      intro loc2 hsel
      simp only [step] at hsel ⊢
      exact h loc2 hsel

theorem foldl_layerInv (evs : List Event) (s : AppState) (h : LayerInv s) :
    LayerInv (evs.foldl step s) := by
  induction evs generalizing s with
  | nil => exact h
  | cons e evs ih => exact ih _ (step_preserves_layerInv s e h)

theorem run_layerInv (stored : Stored) (evs : List Event) : LayerInv (run stored evs) := by
  apply foldl_layerInv
  intro loc h
  simp [initState] at h

/-- Claim C9: in every state reachable from a mount of the main variant, a
selected location forces `0 ≤ infoLayer ≤ timeline.length` (the last index
denoting the fun-fact layer), so the `timeline[infoLayer]` access on the
non-fun-fact branch of `InfoCard` is in bounds; moreover every step that
makes a location newly selected resets the layer index to 0. -/
theorem c9_layer_in_bounds :
    (∀ (stored : Stored) (evs : List Event) (loc : Location),
      (run stored evs).selectedLocation = some loc →
      0 ≤ (run stored evs).infoLayer
      ∧ (run stored evs).infoLayer ≤ (loc.timeline.length : ℤ)
      ∧ ((run stored evs).infoLayer ≠ (loc.timeline.length : ℤ) →
          (run stored evs).infoLayer.toNat < loc.timeline.length))
    ∧ (∀ (s : AppState) (e : Event) (loc : Location),
        (step s e).selectedLocation = some loc →
        s.selectedLocation ≠ some loc → (step s e).infoLayer = 0) := by
  constructor
  · intro stored evs loc hsel
    obtain ⟨h1, h2⟩ := run_layerInv stored evs loc hsel
    exact ⟨h1, h2, fun hne => by omega⟩
  · intro s e loc hsel hne
    cases e with
    | markerClick loc0 =>
        by_cases hmem : loc0.id ∈ s.unlockedIds
        · simp only [step, if_pos hmem]
        · simp [step, hmem] at hsel
    | trackerClick loc0 =>
        by_cases hmem : loc0.id ∈ s.unlockedIds
        · simp only [step, if_pos hmem]
        · simp only [step, if_neg hmem] at hsel
          exact absurd hsel hne
    | closeCard => simp [step] at hsel
    | closeLocked =>
        simp only [step] at hsel
        exact absurd hsel hne
    | toggleTracker =>
        simp only [step] at hsel
        exact absurd hsel hne
    | prevLayer =>
        simp only [step] at hsel
        exact absurd hsel hne
    | nextLayer =>
        cases hsel0 : s.selectedLocation with
        | none =>
            simp only [step, hsel0] at hsel
            exact absurd hsel (by simp [hsel0])
        | some loc0 =>
            simp only [step, hsel0] at hsel
            rw [hsel0] at hne
            exact absurd hsel hne
    | positionFix nearby =>
        simp only [step] at hsel
        exact absurd hsel hne

/-- Witness for C9: after a fresh mount and one tap on the Flamel marker the
selection hypothesis holds and the layer index is in bounds. -/
theorem c9_witness :
    0 ≤ (run Stored.missing [Event.markerClick nicolasFlamel]).infoLayer
    ∧ (run Stored.missing [Event.markerClick nicolasFlamel]).infoLayer
        ≤ (nicolasFlamel.timeline.length : ℤ) := by
  obtain ⟨h1, h2, h3⟩ := c9_layer_in_bounds.1 Stored.missing
    [Event.markerClick nicolasFlamel] nicolasFlamel rfl
  exact ⟨h1, h2⟩

/-! ## Properties of the haversine distance -/

theorem atan2_zero_one : atan2 0 1 = 0 := by
  unfold atan2
  rw [if_pos (by norm_num : (0:ℝ) < 1), zero_div, Real.arctan_zero]

theorem haversineA_self (lat lng : ℝ) : haversineA lat lng lat lng = 0 := by
  unfold haversineA
  rw [sub_self, sub_self]
  simp

theorem getDistanceMeters_self (lat lng : ℝ) : getDistanceMeters lat lng lat lng = 0 := by
  unfold getDistanceMeters
  rw [haversineA_self, Real.sqrt_zero, sub_zero, Real.sqrt_one, atan2_zero_one, mul_zero]

theorem sin_sq_neg_arg (u v : ℝ) :
    Real.sin ((u - v) * Real.pi / 180 / 2) ^ 2 =
      Real.sin ((v - u) * Real.pi / 180 / 2) ^ 2 := by
  have h : (u - v) * Real.pi / 180 / 2 = -((v - u) * Real.pi / 180 / 2) := by ring
  rw [h, Real.sin_neg, neg_sq]

theorem haversineA_comm (lat1 lng1 lat2 lng2 : ℝ) :
    haversineA lat1 lng1 lat2 lng2 = haversineA lat2 lng2 lat1 lng1 := by
  unfold haversineA
  rw [sin_sq_neg_arg lat2 lat1, sin_sq_neg_arg lng2 lng1]
  ring

theorem getDistanceMeters_comm (lat1 lng1 lat2 lng2 : ℝ) :
    getDistanceMeters lat1 lng1 lat2 lng2 = getDistanceMeters lat2 lng2 lat1 lng1 := by
  unfold getDistanceMeters
  rw [haversineA_comm]

/-- Claim C8: the distance of every point to itself is 0, and the distance is
symmetric in its two points — exactly, in the real-valued model, which in
particular implies symmetry within any floating-point tolerance. -/
theorem c8_distance_refl_symm :
    (∀ lat lng : ℝ, getDistanceMeters lat lng lat lng = 0)
    ∧ (∀ lat1 lng1 lat2 lng2 : ℝ,
        getDistanceMeters lat1 lng1 lat2 lng2 = getDistanceMeters lat2 lng2 lat1 lng1) :=
  ⟨getDistanceMeters_self, getDistanceMeters_comm⟩

/-! ## The Flamel / 150 m-north evaluation (claim C4)

With equal longitudes, the haversine value collapses to `sin²(Δφ/2)` and the
distance to `R · Δφ`, here `6371000 · 0.00135 · π/180 ≈ 150.11 m`. -/

theorem flamel_north_haversineA :
    haversineA 48.8619 2.3549 (48.8619 + 0.00135) 2.3549 =
      Real.sin (0.00135 * Real.pi / 180 / 2) ^ 2 := by
  unfold haversineA
  have h1 : (48.8619 + 0.00135 - 48.8619 : ℝ) = 0.00135 := by norm_num
  have h2 : (2.3549 - 2.3549 : ℝ) = 0 := by norm_num
  rw [h1, h2]
  simp

theorem flamel_north_dist :
    getDistanceMeters 48.8619 2.3549 (48.8619 + 0.00135) 2.3549 =
      6371000 * 2 * (0.00135 * Real.pi / 180 / 2) := by
  unfold getDistanceMeters
  rw [flamel_north_haversineA]
  set θ := 0.00135 * Real.pi / 180 / 2 with hθ
  have hpos : 0 < θ := by
    rw [hθ]
    positivity
  have hlt : θ < Real.pi / 2 := by
    rw [hθ]
    linarith [Real.pi_pos]
  have hsin : 0 ≤ Real.sin θ := by
    apply Real.sin_nonneg_of_nonneg_of_le_pi (le_of_lt hpos)
    linarith [Real.pi_pos]
  have hcos : 0 < Real.cos θ := by
    apply Real.cos_pos_of_mem_Ioo
    constructor
    · linarith [Real.pi_pos]
    · exact hlt
  have h2 : (1 : ℝ) - Real.sin θ ^ 2 = Real.cos θ ^ 2 := by
    have h3 := Real.sin_sq_add_cos_sq θ
    linarith
  rw [Real.sqrt_sq hsin, h2, Real.sqrt_sq (le_of_lt hcos)]
  unfold atan2
  rw [if_pos hcos, ← Real.tan_eq_sin_div_cos,
    Real.arctan_tan (by linarith [Real.pi_pos]) hlt]

theorem flamel_north_dist_pos150 :
    150 < getDistanceMeters 48.8619 2.3549 (48.8619 + 0.00135) 2.3549 := by
  rw [flamel_north_dist]
  linarith [Real.pi_gt_d6]

theorem flamel_north_dist_le151 :
    getDistanceMeters 48.8619 2.3549 (48.8619 + 0.00135) 2.3549 ≤ 151 := by
  rw [flamel_north_dist]
  linarith [Real.pi_lt_d6]

theorem flamel_not_nearby (r : ℝ) (hr : r ≤ 150) :
    nicolasFlamel ∉ computeNearby (48.8619 + 0.00135) 2.3549 r := by
  intro hmem
  have hd := hmem.2
  have hlat : nicolasFlamel.coordinates.2 = (48.8619 : ℝ) := rfl
  have hlng : nicolasFlamel.coordinates.1 = (2.3549 : ℝ) := rfl
  rw [hlat, hlng, getDistanceMeters_comm] at hd
  linarith [flamel_north_dist_pos150]

/-- Claim C4: the claim asserts that the Flamel site is within the computed
nearby set at radius 150 m of the point 150 m due north.  It is refuted: the
haversine distance between (48.8619, 2.3549) and (48.8619 + 0.00135, 2.3549)
is `6371000 · 0.00135 · π/180 ≈ 150.11 m`, which exceeds 150, so the `dist ≤
150` filter excludes the site (the distance is nonetheless ≤ 151 and the site
is excluded at radius 100, as claimed). -/
theorem c4_counterexample :
    ¬ (getDistanceMeters 48.8619 2.3549 (48.8619 + 0.00135) 2.3549 ≤ 151
       ∧ nicolasFlamel ∈ computeNearby (48.8619 + 0.00135) 2.3549 150
       ∧ nicolasFlamel ∉ computeNearby (48.8619 + 0.00135) 2.3549 100) := by
  rintro ⟨-, hmem, -⟩
  exact flamel_not_nearby 150 le_rfl hmem

/-- Claim C4 (amended): for the Flamel site and the point 0.00135° due north,
the haversine distance lies in (150 m, 151 m], so the site is excluded from
the computed nearby set both at radius 150 m and at radius 100 m. -/
theorem c4_flamel_distance :
    150 < getDistanceMeters 48.8619 2.3549 (48.8619 + 0.00135) 2.3549
    ∧ getDistanceMeters 48.8619 2.3549 (48.8619 + 0.00135) 2.3549 ≤ 151
    ∧ nicolasFlamel ∉ computeNearby (48.8619 + 0.00135) 2.3549 150
    ∧ nicolasFlamel ∉ computeNearby (48.8619 + 0.00135) 2.3549 100 :=
  ⟨flamel_north_dist_pos150, flamel_north_dist_le151,
   flamel_not_nearby 150 le_rfl, flamel_not_nearby 100 (by norm_num)⟩
